import Mathlib

/-!
Verification of the RMM memory-resource snapshot: a shallow embedding of
`include/rmm/mr/memory_resource.hpp` (the allocator contract, the pmr
adaptor and the stream-ordered resource) and the Cython binding file
(concrete resource wrappers, the logging adaptor and the process-wide
default-resource registry), together with proofs of the specified
properties.
-/

namespace RMM

/-! ## Memory kinds (memory_resource.hpp, lines 39-44) -/

/-- The `memory_kind` enumeration of the source header: where an
allocation is accessible from. -/
inductive memory_kind where
  | device
  | unified
  | pinned
  | host
deriving DecidableEq

/-! ## Base `memory_resource` equality (memory_resource.hpp, lines 149-162)

`is_equal` virtually dispatches to `do_is_equal`; the base-class default
compares object identity (`this == &__other`).  We model an object by its
address (a `Nat`) and virtual dispatch by an optional override table: a
resource whose dynamic type does not override `do_is_equal` maps to
`none` and falls through to the base default. -/

/-- Virtual dispatch of `memory_resource::is_equal`: if the dynamic type at
address `self` overrides `do_is_equal`, use the override, otherwise the
base default `this == &__other` (identity of addresses). -/
def mr_is_equal (override : Nat → Option (Nat → Bool)) (self other : Nat) : Bool :=
  match override self with
  | some f => f other
  | none => self == other

/-! ## `pmr_adaptor` equality (memory_resource.hpp, lines 216-220)

`pmr_adaptor::do_is_equal` first `dynamic_cast`s the other
`std::pmr::memory_resource` to `__pmr_adaptor_base`; if the cast fails it
returns `false`, otherwise it compares the wrapped resources: raw-pointer
identity of `resource()` or `other.resource()->is_equal(*resource())`.
A pmr-side resource is either such an adaptor (identified by the address
of the resource it wraps) or some other, non-adaptor pmr resource. -/

/-- A `std::pmr::memory_resource` as seen by `pmr_adaptor::do_is_equal`:
either a resource deriving from `__pmr_adaptor_base` wrapping the cuda
resource at address `wrapped`, or any non-adaptor pmr resource. -/
inductive PmrResource where
  | adaptor (wrapped : Nat)
  | plain (id : Nat)
deriving DecidableEq

/-- `pmr_adaptor::do_is_equal`, for the adaptor wrapping the resource at
address `w`.  `eq w2 w1` stands for `(resource at w2).is_equal(resource at w1)`
of the wrapped cuda resources. -/
def pmr_do_is_equal (eq : Nat → Nat → Bool) (w : Nat) : PmrResource → Bool
  | .adaptor w2 => (w2 == w) || eq w2 w
  | .plain _ => false

/-! ## Stream-ordered resource (memory_resource.hpp, lines 246-384)

`stream_ordered_memory_resource` leaves exactly two operations pure
virtual, `do_allocate_async` and `do_deallocate_async`, and overrides the
inherited synchronous `do_allocate` / `do_deallocate` with defaults built
from them.  We model an implementation by exactly those two state
transformers, together with the `stream_view::synchronize` effect of the
stream type (streams are identified by `Nat`; the default-constructed
`stream_view{}` is the CUDA default stream, stream `0`). -/

/-- The designated default stream: `stream_view{}` in the source,
the CUDA default stream. -/
def default_stream : Nat := 0

/-- A concrete stream-ordered resource: exactly the two pure-virtual async
operations (`do_allocate_async bytes align stream` returning the pointer,
and `do_deallocate_async p bytes align stream`), plus the synchronize
effect of the stream type.  State type `σ` is the resource's own state. -/
structure StreamOrderedImpl (σ : Type) where
  do_allocate_async : Nat → Nat → Nat → σ → Nat × σ
  do_deallocate_async : Nat → Nat → Nat → Nat → σ → σ
  synchronize : Nat → σ → σ

/-- `stream_ordered_memory_resource::do_allocate` (lines 363-368): allocate
asynchronously on the default stream, synchronize that stream, return the
pointer. -/
def so_do_allocate {σ : Type} (r : StreamOrderedImpl σ) (bytes align : Nat) (st : σ) :
    Nat × σ :=
  let q := r.do_allocate_async bytes align default_stream st
  (q.1, r.synchronize default_stream q.2)

/-- `stream_ordered_memory_resource::do_deallocate` (lines 371-376):
synchronize the default stream, then deallocate asynchronously on it. -/
def so_do_deallocate {σ : Type} (r : StreamOrderedImpl σ) (p bytes align : Nat) (st : σ) :
    σ :=
  r.do_deallocate_async p bytes align default_stream (r.synchronize default_stream st)

/-- Written from the spec's words, for comparison with the source: "the
non-stream `allocate` has a default implementation in terms of the async
pair plus explicit synchronization of a designated default stream" —
i.e. the result of `allocate_async` on the default stream, with that
stream synchronized. -/
def spec_allocate_via_async {σ : Type} (r : StreamOrderedImpl σ) (bytes align : Nat)
    (st : σ) : Nat × σ :=
  let p := (r.do_allocate_async bytes align default_stream st).1
  let st1 := (r.do_allocate_async bytes align default_stream st).2
  (p, r.synchronize default_stream st1)

/-- Written from the spec's words: the non-stream `deallocate` in terms of
`deallocate_async` on the designated default stream plus explicit
synchronization of that stream (synchronizing pending work before the
deallocation is enqueued). -/
def spec_deallocate_via_async {σ : Type} (r : StreamOrderedImpl σ) (p bytes align : Nat)
    (st : σ) : σ :=
  let st1 := r.synchronize default_stream st
  r.do_deallocate_async p bytes align default_stream st1

/-! An operational model of stream-ordered lifetime, to check that the
derived synchronous `allocate` really yields a valid synchronous
allocator: an allocation made on stream `s` is at first usable only on
`s`; synchronizing `s` makes it usable in any context (the contract of
the plain `memory_resource`, whose context is `any_context`). -/

/-- Stream-ordered allocation state: the next fresh pointer, the
allocations usable only on one stream, and the allocations usable in any
context. -/
structure StreamState where
  nextPtr : Nat
  readyOnStream : List (Nat × Nat)
  readyAnyContext : List Nat
deriving DecidableEq

/-- The operational stream-ordered resource: `do_allocate_async` returns a
fresh pointer usable only on the given stream; `do_deallocate_async`
retires the pointer; `synchronize s` promotes every allocation pending on
stream `s` to any-context usability. -/
def streamModel : StreamOrderedImpl StreamState where
  do_allocate_async := fun _bytes _align stream st =>
    (st.nextPtr,
      { st with
        nextPtr := st.nextPtr + 1
        readyOnStream := (st.nextPtr, stream) :: st.readyOnStream })
  do_deallocate_async := fun p _bytes _align _stream st =>
    { st with
      readyOnStream := st.readyOnStream.filter (fun q => q.1 ≠ p)
      readyAnyContext := st.readyAnyContext.filter (fun q => q ≠ p) }
  synchronize := fun stream st =>
    { st with
      readyOnStream := st.readyOnStream.filter (fun q => q.2 ≠ stream)
      readyAnyContext :=
        (st.readyOnStream.filter (fun q => q.2 = stream)).map Prod.fst
          ++ st.readyAnyContext }

/-! ## Memory kinds of the concrete allocators (claim C5)

The `memory_kind` enumeration and the per-resource `kind` member are in
the header; the concrete wrapper classes that instantiate it live outside
the files at hand, so the variant list is taken from the spec. -/

/-- Modelled from the spec: the in-scope concrete allocator variants —
"primitive (device/managed/pinned), pool, fixed-size, binning, logging"
together with the binding's cnmem pool variants.  The wrapper classes
that declare their kinds are not among the source files here. -/
inductive ConcreteAllocator where
  | cuda
  | managed
  | pinnedPrimitive
  | cnmem
  | cnmemManaged
  | pool (upstream : ConcreteAllocator)
  | fixedSize (upstream : ConcreteAllocator)
  | binning (upstream : ConcreteAllocator)
  | logging (upstream : ConcreteAllocator)
deriving DecidableEq

/-- The single `memory_kind` each concrete allocator declares
(`memory_resource::kind`, header line 83): the primitives declare their
own kind, and each layered allocator is instantiated at its upstream's
kind. -/
def declared_kind : ConcreteAllocator → memory_kind
  | .cuda => .device
  | .cnmem => .device
  | .managed => .unified
  | .cnmemManaged => .unified
  | .pinnedPrimitive => .pinned
  | .pool u => declared_kind u
  | .fixedSize u => declared_kind u
  | .binning u => declared_kind u
  | .logging u => declared_kind u

/-! ## The Python binding (src/unnamed/part_000)

The binding wraps each C++ resource in a Python object holding a shared
pointer `c_obj`; a module-level global `_mr` is the default-resource
registry.  Python objects are modelled as values, shared pointers as
`Option Nat` (a wrapper-object id, or null), and Python exceptions as
`Except PyErr`.  References held by callers are tracked explicitly, since
rebinding the global does not drop them. -/

/-- Dynamic type tag of a binding-level resource object. -/
inductive RTy where
  | base
  | cuda
  | managed
  | cnmem
  | cnmemManaged
  | pool
  | fixedSize
  | binning
  | loggingAdaptor
deriving DecidableEq

/-- A binding-level `MemoryResource` Python object: its dynamic type and
its `c_obj` shared pointer (none = null/empty). -/
structure PyMR where
  ty : RTy
  c_obj : Option Nat
deriving DecidableEq

/-- Modelled from the spec: the binding's base `MemoryResource` holder
class (declared outside the files at hand) default-constructs with an
empty `c_obj` smart pointer — the uninitialized-registry representation
that `is_initialized` tests for. -/
def emptyBase : PyMR := { ty := RTy.base, c_obj := none }

/-- The registry and allocation environment of the binding: the global
`_mr` slot (field `mr`), the C++-side default slot written by
`set_default_resource(_mr.c_obj)`, the resource objects the callers still
hold references to, and a fresh-id counter for `new`-ed wrappers. -/
structure RegState where
  mr : PyMR
  cpp_default : Option Nat
  external_refs : List PyMR
  nextObj : Nat
deriving DecidableEq

/-- Modelled from the spec: at process start the registry is
uninitialized — the slot holds no constructed allocator. -/
def startState : RegState :=
  { mr := emptyBase, cpp_default := none, external_refs := [], nextObj := 0 }

/-- Python exceptions raised by the binding paths modelled here. -/
inductive PyErr where
  | typeError
  | attributeError
deriving DecidableEq

/-- `obj.encode()` on an optional string: on `None`, attribute access
raises `AttributeError`; otherwise the encoded bytes (kept as the string
itself). -/
def py_encode : Option String → Except PyErr String
  | none => Except.error PyErr.attributeError
  | some s => Except.ok s

/-- The log-file-name resolution of `LoggingResourceAdaptor.__cinit__`
(part_000 lines 213-221): if the `log_file_name` argument is `None`, fall
back to `os.getenv("RMM_LOG_FILE")` and raise `TypeError` when the result
is falsy (unset or empty); an explicitly passed argument, even the empty
string, is used as given. -/
def logging_log_file_name (log_file_name env_rmm_log_file : Option String) :
    Except PyErr String :=
  match log_file_name with
  | some s => Except.ok s
  | none =>
    match env_rmm_log_file with
    | none => Except.error PyErr.typeError
    | some e => if e = "" then Except.error PyErr.typeError else Except.ok e

/-- `LoggingResourceAdaptor.__cinit__` (part_000 lines 213-227): resolve
the log file name, then reset `c_obj` to a new
`logging_resource_adaptor_wrapper` over the upstream's `c_obj`.  Returns
the constructed Python object and the advanced fresh-id counter. -/
def LoggingResourceAdaptor_cinit (upstream : PyMR)
    (log_file_name env_rmm_log_file : Option String) (nextObj : Nat) :
    Except PyErr (PyMR × Nat) :=
  match logging_log_file_name log_file_name env_rmm_log_file with
  | Except.error e => Except.error e
  | Except.ok _fname =>
    let _up := upstream.c_obj
    Except.ok ({ ty := RTy.loggingAdaptor, c_obj := some nextObj }, nextObj + 1)

/-- `__cinit__` of the concrete non-adaptor resources (part_000 lines
10-83): reset `c_obj` to a freshly `new`-ed wrapper. -/
def construct_resource (ty : RTy) (s : RegState) : PyMR × RegState :=
  ({ ty := ty, c_obj := some s.nextObj }, { s with nextObj := s.nextObj + 1 })

/-- `_set_default_resource` (part_000 lines 299-311): rebind the global
`_mr` to the given resource and install its `c_obj` in the C++-side
default slot.  References held by callers are untouched. -/
def _set_default_resource (mr : PyMR) (s : RegState) : RegState :=
  { s with mr := mr, cpp_default := mr.c_obj }

/-- `get_default_resource_type` (part_000 lines 314-318): `type(_mr)`. -/
def get_default_resource_type (s : RegState) : RTy := s.mr.ty

/-- `is_initialized` (part_000 lines 321-323):
`_mr.c_obj.get() is not NULL`. -/
def is_initialized (s : RegState) : Bool := s.mr.c_obj.isSome

/-- Modelled from the spec: shared ownership keeps a resource alive while
any holder remains, and deallocating through a resource is valid exactly
when the object is alive (held by the registry slot or by a caller) and
actually holds a constructed allocator. -/
def deallocate_via (s : RegState) (x : PyMR) : Option Unit :=
  if (s.mr = x ∨ x ∈ s.external_refs) ∧ x.c_obj.isSome then some () else none

/-- `_initialize` (part_000 lines 251-296): rebind `_mr` to a fresh empty
base holder, pick the wrapper type from the `pool_allocator` /
`managed_memory` flags, normalize the pool arguments, construct the
resource (wrapped in a logging adaptor when `logging` is set, encoding
`log_file_name` first), and install it via `_set_default_resource`.
Exceptions propagate with the module state as mutated so far. -/
def initialize_rmm (pool_allocator managed_memory : Bool)
    (initial_pool_size : Option Nat) (devices : Option (Int ⊕ List Int))
    (logging : Bool) (log_file_name : Option String)
    (env_rmm_log_file : Option String) (s : RegState) :
    Except PyErr Unit × RegState :=
  let s := { s with mr := emptyBase }
  let typ : RTy :=
    if !pool_allocator then (if !managed_memory then RTy.cuda else RTy.managed)
    else (if !managed_memory then RTy.cnmem else RTy.cnmemManaged)
  let _ips : Option Nat :=
    if pool_allocator then some (initial_pool_size.getD 0) else none
  let _devs : Option (List Int) :=
    if pool_allocator then
      some (match devices with
        | none => [0]
        | some (Sum.inl d) => [d]
        | some (Sum.inr ds) => ds)
    else none
  if logging then
    let q := construct_resource typ s
    match py_encode log_file_name with
    | Except.error e => (Except.error e, q.2)
    | Except.ok b =>
      match LoggingResourceAdaptor_cinit q.1 (some b) env_rmm_log_file q.2.nextObj with
      | Except.error e => (Except.error e, q.2)
      | Except.ok (mr, n) =>
        (Except.ok (), _set_default_resource mr { q.2 with nextObj := n })
  else
    let q := construct_resource typ s
    (Except.ok (), _set_default_resource q.1 q.2)

/-! ## Flushing (claim C8)

`_flush_logs` (part_000 lines 326-328) calls `_mr.flush()` on the global
default.  `flush` is declared only on `LoggingResourceAdaptor`; on any
other resource type the attribute lookup raises `AttributeError`.  To
state that no other object's records are touched, resources carry a log
buffer and a sink and live in an explicit heap. -/

/-- A resource object as `_flush_logs` sees it: its dynamic type, its
buffered log records, and its durably written sink. -/
structure MRBuf where
  ty : RTy
  buffer : List Nat
  sink : List Nat
deriving DecidableEq

/-- The Python heap of resource objects and the id the global `_mr`
points at. -/
structure FlushState where
  heap : List (Nat × MRBuf)
  mrId : Nat
deriving DecidableEq

/-- Heap lookup by object id. -/
def heapGet : List (Nat × MRBuf) → Nat → Option MRBuf
  | [], _ => none
  | (j, v) :: t, i => if j = i then some v else heapGet t i

/-- Heap update at an object id. -/
def heapSet (h : List (Nat × MRBuf)) (i : Nat) (v : MRBuf) : List (Nat × MRBuf) :=
  h.map fun p => if p.1 = i then (i, v) else p

/-- Modelled from the spec: the logging adaptor's `flush()` forces its
buffered records to the sink (the wrapper's flush is declared outside the
files at hand); on a non-logging resource the `flush` attribute lookup
raises `AttributeError`. -/
def mr_flush (m : MRBuf) : Except PyErr MRBuf :=
  if m.ty = RTy.loggingAdaptor then
    Except.ok { m with buffer := [], sink := m.sink ++ m.buffer }
  else Except.error PyErr.attributeError

/-- `_flush_logs` (part_000 lines 326-328): `_mr.flush()` on the object
the global default points at. -/
def _flush_logs (s : FlushState) : Except PyErr FlushState :=
  match heapGet s.heap s.mrId with
  | none => Except.error PyErr.attributeError
  | some m =>
    match mr_flush m with
    | Except.error e => Except.error e
    | Except.ok m2 => Except.ok { s with heap := heapSet s.heap s.mrId m2 }

end RMM

namespace RMM

/-- Updating one heap slot leaves every other id's lookup unchanged. -/
theorem heapGet_heapSet_ne (h : List (Nat × RMM.MRBuf)) (i j : Nat) (v : RMM.MRBuf)
    (hne : j ≠ i) : heapGet (heapSet h i v) j = heapGet h j := by
  induction h with
  | nil => rfl
  | cons p t ih =>
    obtain ⟨k, w⟩ := p
    simp only [heapSet, List.map_cons]
    by_cases hk : k = i
    · rw [if_pos (show (k, w).1 = i from hk)]
      simp only [heapGet]
      rw [if_neg (fun hij => hne hij.symm),
        if_neg (fun hkj => hne ((hk ▸ hkj : i = j)).symm)]
      exact ih
    · rw [if_neg (show ¬(k, w).1 = i from hk)]
      simp only [heapGet]
      by_cases hkj : k = j
      · simp only [if_pos hkj]
      · simp only [if_neg hkj]
        exact ih

/-- C3: a `memory_resource` whose dynamic type does not override
`do_is_equal` compares by object identity: `is_equal` returns `true`
exactly when the other resource is the very same object.  Reflexivity and
falsity between distinct non-overriding resources are the two directions
of the equivalence. -/
theorem mr_default_is_equal_iff_identity :
    ∀ (ov : Nat → Option (Nat → Bool)) (self other : Nat), ov self = none →
      (mr_is_equal ov self other = true ↔ self = other) := by
  intro ov self other h
  simp [mr_is_equal, h]

/-- Witness for C3: with an empty override table, a resource compares
equal to itself. -/
theorem mr_default_is_equal_iff_identity_witness :
    mr_is_equal (fun _ => none) 3 3 = true :=
  (mr_default_is_equal_iff_identity (fun _ => none) 3 3 rfl).mpr rfl

/-- C2: if two `pmr_adaptor`s wrap resources that are the same object, or
whose own `is_equal` relation holds between them (in both directions, as
the documented symmetric contract of `is_equal` provides), then the two
adaptors compare equal to each other under the adaptor's `do_is_equal`. -/
theorem pmr_adaptors_equal_of_wrapped_equal :
    ∀ (eq : Nat → Nat → Bool) (w1 w2 : Nat),
      (w1 = w2 ∨ (eq w1 w2 = true ∧ eq w2 w1 = true)) →
      pmr_do_is_equal eq w1 (PmrResource.adaptor w2) = true ∧
        pmr_do_is_equal eq w2 (PmrResource.adaptor w1) = true := by
  intro eq w1 w2 h
  rcases h with h | ⟨h12, h21⟩
  · subst h
    simp [pmr_do_is_equal]
  · simp [pmr_do_is_equal, h12, h21]

/-- Witness for C2: two adaptors around distinct resources `2` and `4`
that an underlying equality relation identifies compare equal both ways. -/
theorem pmr_adaptors_equal_of_wrapped_equal_witness :
    pmr_do_is_equal (fun x y => x % 2 == y % 2) 2 (PmrResource.adaptor 4) = true ∧
      pmr_do_is_equal (fun x y => x % 2 == y % 2) 4 (PmrResource.adaptor 2) = true :=
  pmr_adaptors_equal_of_wrapped_equal (fun x y => x % 2 == y % 2) 2 4
    (Or.inr ⟨by decide, by decide⟩)

/-- C10: `pmr_adaptor::do_is_equal` returns `false` against every pmr
resource that is not itself derived from the adaptor base (the
`dynamic_cast` fails), and returns `true` exactly when the other resource
is such an adaptor whose wrapped resource is the same object as, or
itself compares equal to, this adaptor's wrapped resource. -/
theorem pmr_is_equal_characterization :
    ∀ (eq : Nat → Nat → Bool) (w : Nat),
      (∀ i, pmr_do_is_equal eq w (PmrResource.plain i) = false) ∧
      (∀ r, pmr_do_is_equal eq w r = true ↔
        ∃ w2, r = PmrResource.adaptor w2 ∧ (w2 = w ∨ eq w2 w = true)) := by
  intro eq w
  refine ⟨fun i => rfl, fun r => ?_⟩
  cases r with
  | adaptor w2 =>
    simp [pmr_do_is_equal, Bool.or_eq_true, beq_iff_eq]
  | plain i =>
    simp [pmr_do_is_equal]

/-- C1: the synchronous `allocate`/`deallocate` that
`stream_ordered_memory_resource` inherits are implemented, for every
implementation of the two remaining pure-virtual async operations, as the
async pair on the designated default stream plus explicit synchronization
of that stream; and in the operational stream model the pointer returned
by the derived synchronous `allocate` is usable in any context, so the
stream-ordered resource is a valid synchronous allocator. -/
theorem stream_ordered_sync_ops_refine_async_pair :
    (∀ (σ : Type) (r : StreamOrderedImpl σ) (bytes align : Nat) (st : σ),
        so_do_allocate r bytes align st = spec_allocate_via_async r bytes align st) ∧
    (∀ (σ : Type) (r : StreamOrderedImpl σ) (p bytes align : Nat) (st : σ),
        so_do_deallocate r p bytes align st = spec_deallocate_via_async r p bytes align st) ∧
    (∀ (bytes align : Nat) (st : StreamState),
        (so_do_allocate streamModel bytes align st).1 ∈
          (so_do_allocate streamModel bytes align st).2.readyAnyContext) := by
  refine ⟨fun σ r bytes align st => rfl, fun σ r p bytes align st => rfl, ?_⟩
  intro bytes align st
  simp [so_do_allocate, streamModel, default_stream]

/-- C5: every concrete in-scope allocator declares exactly one memory
kind, and that kind is only ever device, unified (managed) or pinned —
no in-scope allocator declares the host kind. -/
theorem concrete_allocator_kind_in_scope :
    ∀ a : ConcreteAllocator,
      declared_kind a ≠ memory_kind.host ∧
      (declared_kind a = memory_kind.device ∨ declared_kind a = memory_kind.unified ∨
        declared_kind a = memory_kind.pinned) := by
  intro a
  induction a with
  | cuda => exact ⟨by decide, Or.inl rfl⟩
  | managed => exact ⟨by decide, Or.inr (Or.inl rfl)⟩
  | pinnedPrimitive => exact ⟨by decide, Or.inr (Or.inr rfl)⟩
  | cnmem => exact ⟨by decide, Or.inl rfl⟩
  | cnmemManaged => exact ⟨by decide, Or.inr (Or.inl rfl)⟩
  | pool u ih => simpa [declared_kind] using ih
  | fixedSize u ih => simpa [declared_kind] using ih
  | binning u ih => simpa [declared_kind] using ih
  | logging u ih => simpa [declared_kind] using ih

/-- C4: after `_set_default_resource X` then `_set_default_resource Y`
the registry's current allocator is Y, the type getter reports Y's type,
and X — still referenced by a caller — is not destroyed, so deallocation
through X remains valid. -/
theorem set_default_replacement_preserves_previous :
    ∀ (s : RegState) (X Y : PyMR),
      X ∈ s.external_refs → X.c_obj.isSome = true →
      (_set_default_resource Y (_set_default_resource X s)).mr = Y ∧
      get_default_resource_type (_set_default_resource Y (_set_default_resource X s)) =
        Y.ty ∧
      deallocate_via (_set_default_resource Y (_set_default_resource X s)) X =
        some () := by
  intro s X Y href hobj
  refine ⟨rfl, rfl, ?_⟩
  simp only [deallocate_via, _set_default_resource]
  rw [if_pos ⟨Or.inr href, hobj⟩]

/-- Witness for C4: replacing a cuda resource with a managed resource in
a registry whose caller still holds the cuda resource. -/
theorem set_default_replacement_preserves_previous_witness :
    (_set_default_resource ⟨RTy.managed, some 1⟩
        (_set_default_resource ⟨RTy.cuda, some 0⟩
          { mr := emptyBase, cpp_default := none,
            external_refs := [⟨RTy.cuda, some 0⟩], nextObj := 2 })).mr =
      ⟨RTy.managed, some 1⟩ ∧
    get_default_resource_type
        (_set_default_resource ⟨RTy.managed, some 1⟩
          (_set_default_resource ⟨RTy.cuda, some 0⟩
            { mr := emptyBase, cpp_default := none,
              external_refs := [⟨RTy.cuda, some 0⟩], nextObj := 2 })) =
      RTy.managed ∧
    deallocate_via
        (_set_default_resource ⟨RTy.managed, some 1⟩
          (_set_default_resource ⟨RTy.cuda, some 0⟩
            { mr := emptyBase, cpp_default := none,
              external_refs := [⟨RTy.cuda, some 0⟩], nextObj := 2 }))
        ⟨RTy.cuda, some 0⟩ =
      some () :=
  set_default_replacement_preserves_previous
    { mr := emptyBase, cpp_default := none,
      external_refs := [⟨RTy.cuda, some 0⟩], nextObj := 2 }
    ⟨RTy.cuda, some 0⟩ ⟨RTy.managed, some 1⟩ (by decide) (by decide)

/-- C7: `is_initialized` is `false` in the uninitialized start state,
before any allocator has been installed, and `true` as soon as a
constructed allocator is installed via `_set_default_resource`. -/
theorem is_initialized_lifecycle :
    is_initialized startState = false ∧
    ∀ (s : RegState) (X : PyMR), X.c_obj.isSome = true →
      is_initialized (_set_default_resource X s) = true :=
  ⟨rfl, fun _ _ h => h⟩

/-- Witness for C7: installing a constructed cuda resource into the start
state makes `is_initialized` report `true`. -/
theorem is_initialized_lifecycle_witness :
    is_initialized (_set_default_resource ⟨RTy.cuda, some 0⟩ startState) = true :=
  is_initialized_lifecycle.2 startState ⟨RTy.cuda, some 0⟩ rfl

/-- C9: the binding's initialization is not atomic on failure — called
with `logging` set and no `log_file_name`, it raises after having already
rebound the module default to a fresh empty holder, so the previously
installed default is no longer current and `is_initialized` reports
`false` afterwards. -/
theorem initialize_failure_not_atomic :
    ∀ (s : RegState) (pa mm : Bool) (ips : Option Nat)
      (devs : Option (Int ⊕ List Int)) (env : Option String),
      is_initialized s = true →
      (initialize_rmm pa mm ips devs true none env s).1 =
        Except.error PyErr.attributeError ∧
      (initialize_rmm pa mm ips devs true none env s).2.mr = emptyBase ∧
      is_initialized (initialize_rmm pa mm ips devs true none env s).2 = false ∧
      (initialize_rmm pa mm ips devs true none env s).2.mr ≠ s.mr := by
  intro s pa mm ips devs env hinit
  refine ⟨rfl, rfl, rfl, ?_⟩
  intro he
  have h1 : emptyBase = s.mr := by
    calc emptyBase = (initialize_rmm pa mm ips devs true none env s).2.mr := rfl
    _ = s.mr := he
  have h2 : s.mr.c_obj.isSome = true := hinit
  rw [← h1] at h2
  simp [emptyBase] at h2

/-- Witness for C9: a failed logging initialization clears a registry
that held a constructed cuda resource. -/
theorem initialize_failure_not_atomic_witness :
    (initialize_rmm false false none none true none none
        (_set_default_resource ⟨RTy.cuda, some 0⟩ startState)).1 =
      Except.error PyErr.attributeError ∧
    (initialize_rmm false false none none true none none
        (_set_default_resource ⟨RTy.cuda, some 0⟩ startState)).2.mr = emptyBase ∧
    is_initialized
        (initialize_rmm false false none none true none none
          (_set_default_resource ⟨RTy.cuda, some 0⟩ startState)).2 = false ∧
    (initialize_rmm false false none none true none none
        (_set_default_resource ⟨RTy.cuda, some 0⟩ startState)).2.mr ≠
      (_set_default_resource ⟨RTy.cuda, some 0⟩ startState).mr :=
  initialize_failure_not_atomic (_set_default_resource ⟨RTy.cuda, some 0⟩ startState)
    false false none none none rfl

/-- C6 counterexample: the claim fails as stated — an explicitly passed
empty log-file name with the environment variable unset does not raise;
the adaptor is constructed with the empty name, because only a `None`
argument triggers the environment fallback and its emptiness check. -/
theorem logging_cinit_empty_name_constructs :
    LoggingResourceAdaptor_cinit ⟨RTy.cuda, some 0⟩ (some "") none 1 =
      Except.ok (⟨RTy.loggingAdaptor, some 1⟩, 2) := rfl

/-- C6 (amended): with no explicit log-file argument, construction falls
back to the RMM_LOG_FILE environment value and raises `TypeError` when
that is unset or empty; a non-empty environment value, or any explicitly
passed argument — even the empty string — is used and construction
succeeds. -/
theorem logging_cinit_configuration :
    ∀ (up : PyMR) (n : Nat),
      (∀ env, env = none ∨ env = some "" →
        LoggingResourceAdaptor_cinit up none env n = Except.error PyErr.typeError) ∧
      (∀ v, v ≠ "" →
        LoggingResourceAdaptor_cinit up none (some v) n =
          Except.ok (⟨RTy.loggingAdaptor, some n⟩, n + 1)) ∧
      (∀ p env,
        LoggingResourceAdaptor_cinit up (some p) env n =
          Except.ok (⟨RTy.loggingAdaptor, some n⟩, n + 1)) := by
  intro up n
  refine ⟨?_, ?_, fun p env => rfl⟩
  · rintro env (rfl | rfl) <;> rfl
  · intro v hv
    simp [LoggingResourceAdaptor_cinit, logging_log_file_name, hv]

/-- Witness for C6 (amended): both-missing raises, and a non-empty
environment value constructs. -/
theorem logging_cinit_configuration_witness :
    LoggingResourceAdaptor_cinit ⟨RTy.cuda, some 0⟩ none none 1 =
      Except.error PyErr.typeError ∧
    LoggingResourceAdaptor_cinit ⟨RTy.cuda, some 0⟩ none (some "rmm.log") 1 =
      Except.ok (⟨RTy.loggingAdaptor, some 1⟩, 2) :=
  ⟨(logging_cinit_configuration ⟨RTy.cuda, some 0⟩ 1).1 none (Or.inl rfl),
   (logging_cinit_configuration ⟨RTy.cuda, some 0⟩ 1).2.1 "rmm.log" (by decide)⟩

/-- C8: `_flush_logs` acts on exactly the installed default: a logging
default has its buffered records moved to its own sink, a non-logging
default raises `AttributeError`, and the records of every object other
than the default are never touched. -/
theorem flush_logs_only_default :
    ∀ s : FlushState,
      (∀ m, heapGet s.heap s.mrId = some m → m.ty = RTy.loggingAdaptor →
        _flush_logs s = Except.ok
          ⟨heapSet s.heap s.mrId ⟨m.ty, [], m.sink ++ m.buffer⟩, s.mrId⟩) ∧
      (∀ m, heapGet s.heap s.mrId = some m → m.ty ≠ RTy.loggingAdaptor →
        _flush_logs s = Except.error PyErr.attributeError) ∧
      (∀ s2 j, _flush_logs s = Except.ok s2 → j ≠ s.mrId →
        heapGet s2.heap j = heapGet s.heap j) := by
  intro s
  refine ⟨?_, ?_, ?_⟩
  · intro m hm hty
    simp [_flush_logs, hm, mr_flush, hty]
  · intro m hm hty
    simp [_flush_logs, hm, mr_flush, hty]
  · intro s2 j hok hj
    cases hg : heapGet s.heap s.mrId with
    | none =>
      simp only [_flush_logs, hg] at hok
      exact Except.noConfusion hok
    | some m =>
      by_cases hty : m.ty = RTy.loggingAdaptor
      · simp only [_flush_logs, hg, mr_flush, if_pos hty] at hok
        injection hok with h
        subst h
        exact heapGet_heapSet_ne s.heap s.mrId j _ hj
      · simp only [_flush_logs, hg, mr_flush, if_neg hty] at hok
        exact Except.noConfusion hok

/-- Witness for C8: flushing a heap whose default is a logging adaptor
moves exactly its records, leaves the other object untouched, and
flushing a non-logging default raises. -/
theorem flush_logs_only_default_witness :
    _flush_logs ⟨[(0, ⟨RTy.loggingAdaptor, [5], []⟩), (1, ⟨RTy.cuda, [7], []⟩)], 0⟩ =
      Except.ok
        ⟨heapSet [(0, ⟨RTy.loggingAdaptor, [5], []⟩), (1, ⟨RTy.cuda, [7], []⟩)] 0
          ⟨RTy.loggingAdaptor, [], [] ++ [5]⟩, 0⟩ ∧
    heapGet (heapSet [(0, ⟨RTy.loggingAdaptor, [5], []⟩), (1, ⟨RTy.cuda, [7], []⟩)] 0
        ⟨RTy.loggingAdaptor, [], [] ++ [5]⟩) 1 =
      heapGet [(0, ⟨RTy.loggingAdaptor, [5], []⟩), (1, ⟨RTy.cuda, [7], []⟩)] 1 ∧
    _flush_logs ⟨[(2, ⟨RTy.cuda, [7], []⟩)], 2⟩ = Except.error PyErr.attributeError :=
  ⟨(flush_logs_only_default
      ⟨[(0, ⟨RTy.loggingAdaptor, [5], []⟩), (1, ⟨RTy.cuda, [7], []⟩)], 0⟩).1
      ⟨RTy.loggingAdaptor, [5], []⟩ rfl rfl,
   (flush_logs_only_default
      ⟨[(0, ⟨RTy.loggingAdaptor, [5], []⟩), (1, ⟨RTy.cuda, [7], []⟩)], 0⟩).2.2
      ⟨heapSet [(0, ⟨RTy.loggingAdaptor, [5], []⟩), (1, ⟨RTy.cuda, [7], []⟩)] 0
        ⟨RTy.loggingAdaptor, [], [] ++ [5]⟩, 0⟩ 1
      ((flush_logs_only_default
        ⟨[(0, ⟨RTy.loggingAdaptor, [5], []⟩), (1, ⟨RTy.cuda, [7], []⟩)], 0⟩).1
        ⟨RTy.loggingAdaptor, [5], []⟩ rfl rfl)
      (by decide),
   (flush_logs_only_default ⟨[(2, ⟨RTy.cuda, [7], []⟩)], 2⟩).2.1
      ⟨RTy.cuda, [7], []⟩ rfl (by decide)⟩

end RMM
